import Mathlib

/-!
Verification of the STM32C0 ADC driver (`embassy-stm32/src/adc/c0.rs`).

The driver is embedded shallowly: the peripheral's register fields that the
driver touches are gathered into one record `AdcState`, and every driver
function becomes a Lean function from `AdcState` to a new `AdcState` paired
with the list of register operations (`Ev`) it performs, in program order.

Hardware behaviour is modelled only at the points where the driver
synchronises on it: a busy-poll loop `while flag {}` terminates exactly when
the hardware has driven the flag to the exit value, so the post-state of the
poll records that value (with a comment citing the reference-manual behaviour
the source itself quotes).  ISR flag registers are `rc_w1` (write 1 to
clear), so a source line `isr.modify(set_x(true))` clears the modelled flag.

Rust `panic!` / `unimplemented!` are modelled by `Option`: `none` is a fatal
construction error.  Machine integers are `Nat` (divisions cannot overflow
here; the one truncation, `dr as u16`, is an explicit `% 65536`).
-/

namespace AdcC0

/-- Clock mode selector written to CFGR2 (`pac::adc::vals::Ckmode`);
the driver only ever writes `SYSCLK`. -/
inductive Ckmode
  | SYSCLK
  | PCLK_DIV2
  | PCLK_DIV4
  deriving DecidableEq, Repr

/-- External-trigger enable field of CFGR1 (`pac::adc::vals::Exten`);
`DISABLED` means conversions are software-triggered. -/
inductive Exten
  | DISABLED
  | RISING_EDGE
  | FALLING_EDGE
  | BOTH_EDGES
  deriving DecidableEq, Repr

/-- Scan direction field of CFGR1 (`pac::adc::vals::Scandir`). -/
inductive Scandir
  | UPWARD
  | BACKWARD
  deriving DecidableEq, Repr

/-- DMA configuration field of CFGR1 (`pac::adc::vals::Dmacfg`):
bit value 0 is one-shot, 1 is circular. -/
inductive Dmacfg
  | DMA_ONE_SHOT
  | DMA_CIRCULAR
  deriving DecidableEq, Repr

/-- `Dmacfg::from_bits`: the field is one bit, 0 = one-shot, 1 = circular. -/
def Dmacfg.from_bits (n : Nat) : Dmacfg :=
  if n % 2 = 1 then .DMA_CIRCULAR else .DMA_ONE_SHOT

/-- ADC clock prescaler field of the common CCR register
(`pac::adccommon::vals::Presc`). -/
inductive Presc
  | DIV1
  | DIV2
  | DIV4
  | DIV6
  | DIV8
  | DIV10
  | DIV12
  | DIV16
  | DIV32
  | DIV64
  | DIV128
  | DIV256
  deriving DecidableEq, Repr

/-- `pub enum Prescaler` from `c0.rs`. -/
inductive Prescaler
  | NotDivided
  | DividedBy2
  | DividedBy4
  | DividedBy6
  | DividedBy8
  | DividedBy10
  | DividedBy12
  | DividedBy16
  | DividedBy32
  | DividedBy64
  | DividedBy128
  | DividedBy256
  deriving DecidableEq, Repr

/-- `const MAX_ADC_CLK_FREQ: Hertz = Hertz::mhz(25)` in Hz. -/
def MAX_ADC_CLK_FREQ : Nat := 25000000

/-- `const TIME_ADC_VOLTAGE_REGUALTOR_STARTUP_US: u32 = 20` (source spelling kept). -/
def TIME_ADC_VOLTAGE_REGUALTOR_STARTUP_US : Nat := 20

/-- `const TEMP_CHANNEL: u8 = 9`. -/
def TEMP_CHANNEL : Nat := 9

/-- `const VREF_CHANNEL: u8 = 10`. -/
def VREF_CHANNEL : Nat := 10

/-- `Prescaler::from_ker_ck`: `raw_prescaler = frequency / MAX_ADC_CLK_FREQ`,
then the Rust `match` on `raw_prescaler` with range patterns
`0 / 1 / 2..=3 / 4..=5 / 6..=7 / 8..=9 / 10..=11`; the catch-all arm is
`unimplemented!()` (a panic), modelled as `none`. -/
def Prescaler.from_ker_ck (frequency : Nat) : Option Prescaler :=
  if frequency / MAX_ADC_CLK_FREQ = 0 then some .NotDivided
  else if frequency / MAX_ADC_CLK_FREQ = 1 then some .DividedBy2
  else if frequency / MAX_ADC_CLK_FREQ ≤ 3 then some .DividedBy4
  else if frequency / MAX_ADC_CLK_FREQ ≤ 5 then some .DividedBy6
  else if frequency / MAX_ADC_CLK_FREQ ≤ 7 then some .DividedBy8
  else if frequency / MAX_ADC_CLK_FREQ ≤ 9 then some .DividedBy10
  else if frequency / MAX_ADC_CLK_FREQ ≤ 11 then some .DividedBy12
  else none

/-- `Prescaler::divisor`. -/
def Prescaler.divisor : Prescaler → Nat
  | .NotDivided => 1
  | .DividedBy2 => 2
  | .DividedBy4 => 4
  | .DividedBy6 => 6
  | .DividedBy8 => 8
  | .DividedBy10 => 10
  | .DividedBy12 => 12
  | .DividedBy16 => 16
  | .DividedBy32 => 32
  | .DividedBy64 => 64
  | .DividedBy128 => 128
  | .DividedBy256 => 256

/-- `Prescaler::presc`: the CCR field encoding of each divider. -/
def Prescaler.presc : Prescaler → Presc
  | .NotDivided => .DIV1
  | .DividedBy2 => .DIV2
  | .DividedBy4 => .DIV4
  | .DividedBy6 => .DIV6
  | .DividedBy8 => .DIV8
  | .DividedBy10 => .DIV10
  | .DividedBy12 => .DIV12
  | .DividedBy16 => .DIV16
  | .DividedBy32 => .DIV32
  | .DividedBy64 => .DIV64
  | .DividedBy128 => .DIV128
  | .DividedBy256 => .DIV256

/-- `pub enum Averaging` from `c0.rs` (the enum is declared there with a
`TODO: Implement hardware averaging setting.`). -/
inductive Averaging
  | Disabled
  | Samples2
  | Samples4
  | Samples8
  | Samples16
  | Samples32
  | Samples64
  | Samples128
  | Samples256
  | Samples512
  | Samples1024
  deriving DecidableEq, Repr

/-- ADC channels as the driver sees them: the two internal capability types
`VrefInt` / `Temperature` (fixed indices 10 and 9) and external pins carrying
their hardware channel index. -/
inductive Channel
  | vrefint
  | temperature
  | external (idx : Nat)
  deriving DecidableEq, Repr

/-- `SealedAdcChannel::channel` for each handle kind. -/
def Channel.channel : Channel → Nat
  | .vrefint => VREF_CHANNEL
  | .temperature => TEMP_CHANNEL
  | .external idx => idx

/-- The register fields of one ADC instance that `c0.rs` touches, plus the
driver-struct field `sample_time`.  Grouped by hardware register:
CR (`advregen aden adcal adstart adstp addis`),
CFGR1 (`autoff cont exten scandir dmacfg res`),
CFGR2 (`ckmode`),
ISR (`adrdy eos eoc ovr` — these hold the live hardware flag values;
a source write of 1 to one of them clears it, rc_w1),
SMPR (`smpsel` — the 19-bit channel-selection field as a number — and `smp1`),
common CCR (`presc vrefen tsen`),
DR (`dr`, the data register). -/
structure AdcState where
  advregen : Bool
  aden : Bool
  adcal : Bool
  adstart : Bool
  adstp : Bool
  addis : Bool
  autoff : Bool
  cont : Bool
  exten : Exten
  scandir : Scandir
  dmacfg : Dmacfg
  res : Nat
  ckmode : Ckmode
  adrdy : Bool
  eos : Bool
  eoc : Bool
  ovr : Bool
  smpsel : Nat
  smp1 : Nat
  presc : Presc
  vrefen : Bool
  tsen : Bool
  dr : Nat
  sample_time : Nat
  deriving DecidableEq, Repr

/-- One register-level operation performed by the driver, in program order.
`w…` constructors are register writes; `r…` constructors are reads;
`poll…` constructors are busy-poll loops (repeated reads until the named
condition); `delayUs`, `armDma` and `awaitTransfer` are the non-register
steps of the protocols (blocking delay, programming the DMA collaborator,
and the asynchronous suspension on transfer completion). -/
inductive Ev
  | rccEnableReset
  | wCkmode (m : Ckmode)
  | wPresc (p : Presc)
  | delayUs (n : Nat)
  | wAdvregen (b : Bool)
  | rAutoff (v : Bool)
  | wAutoff (v : Bool)
  | wAdcal (b : Bool)
  | pollAdcalClear
  | wAdrdyClear
  | wAden (b : Bool)
  | pollAdrdySet
  | wContExten (cont : Bool) (ext : Exten)
  | rSmpsel0
  | wSmp1 (t : Nat)
  | wRes (r : Nat)
  | wVrefen (b : Bool)
  | wTsen (b : Bool)
  | wEosEocClear
  | wAdstart (b : Bool)
  | pollEosSet
  | rDr (v : Nat)
  | cfgChannel (idx : Nat)
  | wScandir (d : Scandir)
  | wOvrClear
  | wContDmacfg (cont : Bool) (d : Dmacfg)
  | armDma
  | awaitTransfer
  | rCrAdstart (v : Bool)
  | rCrAddis (v : Bool)
  | wAdstp
  | pollAdstartClear
  deriving DecidableEq, Repr

/-- Whether an operation writes an ADC register field.  Reads, polls
(repeated reads), delays, and the DMA-collaborator steps are not register
writes. -/
def Ev.isRegWrite : Ev → Bool
  | .rccEnableReset => false
  | .wCkmode _ => true
  | .wPresc _ => true
  | .delayUs _ => false
  | .wAdvregen _ => true
  | .rAutoff _ => false
  | .wAutoff _ => true
  | .wAdcal _ => true
  | .pollAdcalClear => false
  | .wAdrdyClear => true
  | .wAden _ => true
  | .pollAdrdySet => false
  | .wContExten _ _ => true
  | .rSmpsel0 => false
  | .wSmp1 _ => true
  | .wRes _ => true
  | .wVrefen _ => true
  | .wTsen _ => true
  | .wEosEocClear => true
  | .wAdstart _ => true
  | .pollEosSet => false
  | .rDr _ => false
  | .cfgChannel _ => false
  | .wScandir _ => true
  | .wOvrClear => true
  | .wContDmacfg _ _ => true
  | .armDma => false
  | .awaitTransfer => false
  | .rCrAdstart _ => false
  | .rCrAddis _ => false
  | .wAdstp => true
  | .pollAdstartClear => false

namespace Adc

/-- `Adc::power_up`: set ADVREGEN, then block for the regulator settle time
(`blocking_delay_us(TIME_ADC_VOLTAGE_REGUALTOR_STARTUP_US + 1)`). -/
def power_up (s : AdcState) : AdcState × List Ev :=
  let s1 : AdcState := {s with advregen := true}
  (s1, [.wAdvregen true, .delayUs (TIME_ADC_VOLTAGE_REGUALTOR_STARTUP_US + 1)])

/-- `Adc::calibrate`: read and save AUTOFF, force it off, set ADCAL, then
busy-poll `while cr.read().adcal() {}` — the source quotes the reference
manual: ADCAL "is then cleared by hardware as soon the calibration
completes", so after the poll ADCAL is 0 — and finally write the saved
AUTOFF value back. -/
def calibrate (s : AdcState) : AdcState × List Ev :=
  let autoff_value := s.autoff
  let s1 : AdcState := {s with autoff := false}
  let s2 : AdcState := {s1 with adcal := true}
  let s3 : AdcState := {s2 with adcal := false}
  let s4 : AdcState := {s3 with autoff := autoff_value}
  (s4, [.rAutoff autoff_value, .wAutoff false, .wAdcal true, .pollAdcalClear,
        .wAutoff autoff_value])

/-- `Adc::enable`: `isr.modify(set_adrdy(true))` clears a stale ADRDY flag
(ISR is rc_w1), then set ADEN, then busy-poll `while !isr.read().adrdy() {}`
— the poll exits when hardware asserts ADRDY, so afterwards ADRDY is 1. -/
def enable (s : AdcState) : AdcState × List Ev :=
  let s1 : AdcState := {s with adrdy := false}
  let s2 : AdcState := {s1 with aden := true}
  let s3 : AdcState := {s2 with adrdy := true}
  (s3, [.wAdrdyClear, .wAden true, .pollAdrdySet])

/-- `Adc::configure_default`: one CFGR1 modify setting single conversion
mode (`cont := false`) and software trigger (`exten := DISABLED`). -/
def configure_default (s : AdcState) : AdcState × List Ev :=
  let s1 : AdcState := {s with cont := false, exten := .DISABLED}
  (s1, [.wContExten false .DISABLED])

/-- `Adc::set_sample_time_all_channels`: stores the selector in the driver
struct, then modifies SMPR.  In the source the modify body is
`w.smpsel(0); w.set_smp1(sample_time);` — `smpsel(0)` is the PAC *getter*
for SMPSEL bit 0 (the setter would be `set_smpsel`), so its result is
discarded and the SMPSEL field is left unchanged; only SMP1 is written.
The discarded getter is recorded as the read `rSmpsel0`. -/
def set_sample_time_all_channels (s : AdcState) (sample_time : Nat) :
    AdcState × List Ev :=
  let s1 : AdcState := {s with sample_time := sample_time, smp1 := sample_time}
  (s1, [.rSmpsel0, .wSmp1 sample_time])

/-- `Adc::set_resolution`: one CFGR1 modify of the RES field. -/
def set_resolution (s : AdcState) (resolution : Nat) : AdcState × List Ev :=
  let s1 : AdcState := {s with res := resolution}
  (s1, [.wRes resolution])

/-- `Adc::enable_vrefint`: set VREFEN in the common CCR. -/
def enable_vrefint (s : AdcState) : AdcState × List Ev :=
  ({s with vrefen := true}, [.wVrefen true])

/-- `Adc::enable_temperature`: set TSEN in the common CCR. -/
def enable_temperature (s : AdcState) : AdcState × List Ev :=
  ({s with tsen := true}, [.wTsen true])

/-- `Adc::convert`: clear EOS and EOC (ISR rc_w1 write), set ADSTART, then
busy-poll `while !isr.read().eos() {}`.  The poll exits when the hardware
conversion sequence completes: hardware writes the sample into DR, sets
EOC/EOS, and — in single mode — clears ADSTART at the end of the sequence.
The produced sample is a parameter (`sample`); the returned value is the DR
register read cast `as u16`, i.e. `% 65536`. -/
def convert (s : AdcState) (sample : Nat) : AdcState × Nat × List Ev :=
  let s1 : AdcState := {s with eos := false, eoc := false}
  let s2 : AdcState := {s1 with adstart := true}
  let s3 : AdcState := {s2 with eos := true, eoc := true, dr := sample, adstart := false}
  (s3, sample % 65536, [.wEosEocClear, .wAdstart true, .pollEosSet, .rDr sample])

/-- `Adc::configure_channel`: `channel.setup()` — pin-side setup owned by
the channel handle, no ADC register change. -/
def configure_channel (s : AdcState) (channel : Channel) : AdcState × List Ev :=
  (s, [.cfgChannel channel.channel])

/-- `Adc::read_channel` = `configure_channel` then `convert`. -/
def read_channel (s : AdcState) (channel : Channel) (sample : Nat) :
    AdcState × Nat × List Ev :=
  let c0 := configure_channel s channel
  let c1 := convert c0.fst sample
  (c1.fst, c1.snd.fst, c0.snd ++ c1.snd.snd)

/-- `Adc::blocking_read` = `read_channel`. -/
def blocking_read (s : AdcState) (channel : Channel) (sample : Nat) :
    AdcState × Nat × List Ev :=
  read_channel s channel sample

/-- `Adc::set_scandir`: one CFGR1 modify of the SCANDIR field. -/
def set_scandir (s : AdcState) (scandir : Scandir) : AdcState × List Ev :=
  ({s with scandir := scandir}, [.wScandir scandir])

/-- `Adc::cancel_conversions`: `if cr.read().adstart() && !cr.read().addis()`
(short-circuit: the second CR read happens only when ADSTART was read as 1),
then set ADSTP to STOP and busy-poll `while cr.read().adstart() {}` — the
hardware stops the conversion and clears ADSTART (and ADSTP) — else do
nothing. -/
def cancel_conversions (s : AdcState) : AdcState × List Ev :=
  if s.adstart then
    if s.addis then
      (s, [.rCrAdstart true, .rCrAddis true])
    else
      let s1 : AdcState := {s with adstp := true}
      let s2 : AdcState := {s1 with adstart := false, adstp := false}
      (s2, [.rCrAdstart true, .rCrAddis false, .wAdstp, .pollAdstartClear])
  else
    (s, [.rCrAdstart false])

/-- `Adc::read` (the asynchronous DMA scan), step for step from the source:
cancel any in-flight conversion; `set_scandir`; clear OVR (ISR rc_w1 write);
one CFGR1 modify setting `cont := true` and `dmacfg := DMA_ONE_SHOT`;
`Transfer::new_read` arms the DMA collaborator (no ADC register change);
set ADSTART; `transfer.await` suspends until the DMA transfer completes
(the ADC configuration fields modelled here are not changed by hardware);
cancel again; one CFGR1 modify setting `cont := false` and
`dmacfg := Dmacfg::from_bits(0)`. -/
def read (s : AdcState) (scandir : Scandir) : AdcState × List Ev :=
  let c1 := cancel_conversions s
  let sd := set_scandir c1.fst scandir
  let s2 : AdcState := {sd.fst with ovr := false}
  let s3 : AdcState := {s2 with cont := true, dmacfg := .DMA_ONE_SHOT}
  let s4 : AdcState := {s3 with adstart := true}
  let c2 := cancel_conversions s4
  let s5 : AdcState := {c2.fst with cont := false, dmacfg := Dmacfg.from_bits 0}
  (s5, c1.snd ++ sd.snd
        ++ [.wOvrClear, .wContDmacfg true .DMA_ONE_SHOT, .armDma,
            .wAdstart true, .awaitTransfer]
        ++ c2.snd ++ [.wContDmacfg false (Dmacfg.from_bits 0)])

/-- The prescaler-and-frequency check of `Adc::new` (lines 158–167): the
resulting frequency `frequency / prescaler.divisor()` is recomputed and
compared with `MAX_ADC_CLK_FREQ`; exceeding it is a `panic!`, modelled as
`none`. -/
def check_frequency (frequency : Nat) (prescaler : Prescaler) : Option Nat :=
  if MAX_ADC_CLK_FREQ < frequency / prescaler.divisor then none
  else some (frequency / prescaler.divisor)

/-- `Adc::new`: RCC enable-and-reset; set CFGR2.CKMODE to SYSCLK; select the
prescaler from the kernel clock (panic for out-of-range raw values); write
CCR.PRESC; recompute the frequency and panic if it exceeds the maximum;
build the driver struct with `sample_time = from_bits(0)`; then `power_up`,
`calibrate`, a 1 µs blocking delay, `enable`, `configure_default`, and
`set_sample_time_all_channels(sample_time)`. -/
def new (s : AdcState) (sample_time : Nat) (frequency : Nat) :
    Option (AdcState × List Ev) :=
  match Prescaler.from_ker_ck frequency with
  | none => none
  | some prescaler =>
    match check_frequency frequency prescaler with
    | none => none
    | some _ =>
      let s0 : AdcState :=
        {s with ckmode := .SYSCLK, presc := prescaler.presc, sample_time := 0}
      let r1 := power_up s0
      let r2 := calibrate r1.fst
      let r3 := enable r2.fst
      let r4 := configure_default r3.fst
      let r5 := set_sample_time_all_channels r4.fst sample_time
      some (r5.fst,
        [.rccEnableReset, .wCkmode .SYSCLK, .wPresc prescaler.presc]
          ++ r1.snd ++ r2.snd ++ [.delayUs 1] ++ r3.snd ++ r4.snd ++ r5.snd)

end Adc

/-- Modelled from the spec: the hardware-averaging setter.  `c0.rs` only
declares the `Averaging` enum (with a `TODO: Implement hardware averaging
setting.`); the setter itself lives in the other engine variants of the
repository, which are not under `src/`.  Per the spec (§4.4), enabling
averaging sets the oversampling-enable flag, the ratio field to
`samples − 1`, and the right-shift field to `log2(samples)`; `Disabled`
clears the enable flag with ratio 0 and shift 0.  The result triple is
(enable flag, ratio field, shift field), with the per-variant field values
written as the literal register encodings. -/
def set_averaging_fields : Averaging → Bool × Nat × Nat
  | .Disabled => (false, 0, 0)
  | .Samples2 => (true, 1, 1)
  | .Samples4 => (true, 3, 2)
  | .Samples8 => (true, 7, 3)
  | .Samples16 => (true, 15, 4)
  | .Samples32 => (true, 31, 5)
  | .Samples64 => (true, 63, 6)
  | .Samples128 => (true, 127, 7)
  | .Samples256 => (true, 255, 8)
  | .Samples512 => (true, 511, 9)
  | .Samples1024 => (true, 1023, 10)

/-- The number of accumulated samples each `Averaging` variant denotes. -/
def Averaging.samples : Averaging → Nat
  | .Disabled => 1
  | .Samples2 => 2
  | .Samples4 => 4
  | .Samples8 => 8
  | .Samples16 => 16
  | .Samples32 => 32
  | .Samples64 => 64
  | .Samples128 => 128
  | .Samples256 => 256
  | .Samples512 => 512
  | .Samples1024 => 1024

/-- A concrete post-construction register state used as the evaluation point
of witnesses: everything cleared, software trigger, upward scan, one-shot
DMA, no prescaling. -/
def baseState : AdcState :=
  { advregen := true, aden := true, adcal := false, adstart := false,
    adstp := false, addis := false, autoff := false, cont := false,
    exten := .DISABLED, scandir := .UPWARD, dmacfg := .DMA_ONE_SHOT,
    res := 0, ckmode := .SYSCLK, adrdy := true, eos := false, eoc := false,
    ovr := false, smpsel := 0, smp1 := 0, presc := .DIV1, vrefen := false,
    tsen := false, dr := 0, sample_time := 0 }

/-- Helper: a successful prescaler selection keeps the post-division
frequency within the maximum, so the frequency check succeeds. -/
lemma from_ker_ck_freq_le (f : Nat) (p : Prescaler)
    (h : Prescaler.from_ker_ck f = some p) :
    f / p.divisor ≤ MAX_ADC_CLK_FREQ := by
  simp only [Prescaler.from_ker_ck, MAX_ADC_CLK_FREQ] at h ⊢
  split_ifs at h with h0 h1 h2 h3 h4 h5 h6 <;>
    simp only [Option.some.injEq] at h <;>
    subst h <;> simp only [Prescaler.divisor] <;> omega

/-- Helper: with the frequency bound, `check_frequency` succeeds. -/
lemma check_frequency_of_from_ker_ck (f : Nat) (p : Prescaler)
    (h : Prescaler.from_ker_ck f = some p) :
    Adc.check_frequency f p = some (f / p.divisor) := by
  have hb := from_ker_ck_freq_le f p h
  simp [Adc.check_frequency, Nat.not_lt.mpr hb]

/-- Helper: `cancel_conversions` only ever touches the ADSTP and ADSTART
fields; every configuration field is preserved. -/
lemma cancel_conversions_frame (s : AdcState) :
    (Adc.cancel_conversions s).fst.autoff = s.autoff ∧
    (Adc.cancel_conversions s).fst.cont = s.cont ∧
    (Adc.cancel_conversions s).fst.exten = s.exten ∧
    (Adc.cancel_conversions s).fst.scandir = s.scandir ∧
    (Adc.cancel_conversions s).fst.dmacfg = s.dmacfg ∧
    (Adc.cancel_conversions s).fst.res = s.res ∧
    (Adc.cancel_conversions s).fst.smpsel = s.smpsel ∧
    (Adc.cancel_conversions s).fst.smp1 = s.smp1 := by
  unfold Adc.cancel_conversions
  split_ifs <;> simp

/-- Helper: the DMA scan `read` writes SCANDIR once (to its argument) and
preserves every other CFGR1/SMPR configuration field except CONT and
DMACFG. -/
lemma read_config_frame (s : AdcState) (d : Scandir) :
    (Adc.read s d).fst.scandir = d ∧
    (Adc.read s d).fst.autoff = s.autoff ∧
    (Adc.read s d).fst.exten = s.exten ∧
    (Adc.read s d).fst.res = s.res ∧
    (Adc.read s d).fst.smpsel = s.smpsel ∧
    (Adc.read s d).fst.smp1 = s.smp1 := by
  have h1 := cancel_conversions_frame s
  unfold Adc.read Adc.set_scandir
  have h2 := cancel_conversions_frame
    {(Adc.cancel_conversions s).fst with
      scandir := d, ovr := false, cont := true,
      dmacfg := Dmacfg.DMA_ONE_SHOT, adstart := true}
  simp at h2 ⊢
  simp [h2]
  tauto

/-- C1: every call of the asynchronous scan `read` performs its register
operations in exactly this order: the cancellation sub-protocol, the
scan-direction write, the overrun-flag clear, the single write setting
continuous mode together with one-shot DMA delivery, arming the DMA
transfer, the start-conversion write, the suspension on transfer
completion, the cancellation sub-protocol again, and the single write
clearing continuous mode and the DMA-delivery mode. -/
theorem read_register_order (s : AdcState) (d : Scandir) :
    (Adc.read s d).snd =
      (Adc.cancel_conversions s).snd
        ++ [.wScandir d, .wOvrClear, .wContDmacfg true .DMA_ONE_SHOT,
            .armDma, .wAdstart true, .awaitTransfer]
        ++ (Adc.cancel_conversions
              {(Adc.cancel_conversions s).fst with
                scandir := d, ovr := false, cont := true,
                dmacfg := .DMA_ONE_SHOT, adstart := true}).snd
        ++ [.wContDmacfg false (Dmacfg.from_bits 0)] := by
  unfold Adc.read Adc.set_scandir
  simp

/-- C5: when no conversion is active (ADSTART clear, or ADDIS already set)
`cancel_conversions` changes no register field and performs only reads — an
idempotent no-op; when a conversion is active and not disabling, its
operations are exactly the two CR reads, the ADSTP write, and the poll
until ADSTART clears, after which ADSTART is clear. -/
theorem cancel_conversions_idempotent (s : AdcState) :
    (¬ (s.adstart = true ∧ s.addis = false) →
      (Adc.cancel_conversions s).fst = s ∧
      ∀ e ∈ (Adc.cancel_conversions s).snd, e.isRegWrite = false) ∧
    (s.adstart = true → s.addis = false →
      (Adc.cancel_conversions s).snd =
        [.rCrAdstart true, .rCrAddis false, .wAdstp, .pollAdstartClear] ∧
      (Adc.cancel_conversions s).fst.adstart = false ∧
      (Adc.cancel_conversions s).fst =
        {s with adstart := false, adstp := false}) := by
  constructor
  · intro h
    unfold Adc.cancel_conversions
    rcases ha : s.adstart with _ | _
    · simp [Ev.isRegWrite]
    · rcases hd : s.addis with _ | _
      · exact absurd ⟨ha, hd⟩ h
      · simp [Ev.isRegWrite]
  · intro ha hd
    unfold Adc.cancel_conversions
    simp [ha, hd]

/-- C5 witness: at the concrete idle state `baseState` (ADSTART clear), the
cancellation sub-protocol returns the state unchanged and performs no
register write. -/
theorem cancel_conversions_idempotent_witness :
    (Adc.cancel_conversions baseState).fst = baseState ∧
    ∀ e ∈ (Adc.cancel_conversions baseState).snd, e.isRegWrite = false :=
  (cancel_conversions_idempotent baseState).1 (by decide)

/-- C7: `calibrate` reads and saves the AUTOFF field, forces it off before
setting the calibration-start flag, polls until hardware clears that flag,
and writes back exactly the saved value — so AUTOFF after `calibrate`
equals its value before the call, for every starting state. -/
theorem calibrate_restores_autoff (s : AdcState) :
    (Adc.calibrate s).fst.autoff = s.autoff ∧
    (Adc.calibrate s).fst.adcal = false ∧
    (Adc.calibrate s).snd =
      [.rAutoff s.autoff, .wAutoff false, .wAdcal true, .pollAdcalClear,
       .wAutoff s.autoff] := by
  refine ⟨rfl, rfl, rfl⟩

/-- C10: after `read s d` the SCANDIR field holds exactly the `d` passed to
that call — the post-scan restore write touches only the continuous-mode
and DMA-delivery fields — and every other configuration field (AUTOFF,
EXTEN, RES, SMPSEL, SMP1) is preserved from the initial state. -/
theorem read_preserves_scandir (s : AdcState) (d : Scandir) :
    (Adc.read s d).fst.scandir = d ∧
    (Adc.read s d).fst.autoff = s.autoff ∧
    (Adc.read s d).fst.exten = s.exten ∧
    (Adc.read s d).fst.res = s.res ∧
    (Adc.read s d).fst.smpsel = s.smpsel ∧
    (Adc.read s d).fst.smp1 = s.smp1 :=
  read_config_frame s d

/-- C2: prescaler selection computes `raw = frequency / 25 MHz` by integer
division and returns the divider given by the bucket table `0→÷1, 1→÷2,
2–3→÷4, 4–5→÷6, 6–7→÷8, 8–9→÷10, 10–11→÷12`; for every raw value greater
than 11 construction fails fatally (`unimplemented!`, modelled `none`). -/
theorem from_ker_ck_bucket_table (f : Nat) :
    (f / MAX_ADC_CLK_FREQ = 0 →
      (Prescaler.from_ker_ck f).map Prescaler.divisor = some 1) ∧
    (f / MAX_ADC_CLK_FREQ = 1 →
      (Prescaler.from_ker_ck f).map Prescaler.divisor = some 2) ∧
    (2 ≤ f / MAX_ADC_CLK_FREQ → f / MAX_ADC_CLK_FREQ ≤ 3 →
      (Prescaler.from_ker_ck f).map Prescaler.divisor = some 4) ∧
    (4 ≤ f / MAX_ADC_CLK_FREQ → f / MAX_ADC_CLK_FREQ ≤ 5 →
      (Prescaler.from_ker_ck f).map Prescaler.divisor = some 6) ∧
    (6 ≤ f / MAX_ADC_CLK_FREQ → f / MAX_ADC_CLK_FREQ ≤ 7 →
      (Prescaler.from_ker_ck f).map Prescaler.divisor = some 8) ∧
    (8 ≤ f / MAX_ADC_CLK_FREQ → f / MAX_ADC_CLK_FREQ ≤ 9 →
      (Prescaler.from_ker_ck f).map Prescaler.divisor = some 10) ∧
    (10 ≤ f / MAX_ADC_CLK_FREQ → f / MAX_ADC_CLK_FREQ ≤ 11 →
      (Prescaler.from_ker_ck f).map Prescaler.divisor = some 12) ∧
    (11 < f / MAX_ADC_CLK_FREQ → Prescaler.from_ker_ck f = none) := by
  refine ⟨?_, ?_, ?_, ?_, ?_, ?_, ?_, ?_⟩ <;>
    intro h1 <;> (try intro h2) <;>
    simp only [MAX_ADC_CLK_FREQ] at h1 <;>
    (try simp only [MAX_ADC_CLK_FREQ] at h2) <;>
    simp only [Prescaler.from_ker_ck, MAX_ADC_CLK_FREQ] <;>
    split_ifs <;> first | (simp [Prescaler.divisor]; done) | (exfalso; omega)

/-- C2 witness: at 75 MHz the raw value is 3 and the selected divider is 4;
at 300 MHz the raw value is 12 and selection fails. -/
theorem from_ker_ck_bucket_table_witness :
    (Prescaler.from_ker_ck 75000000).map Prescaler.divisor = some 4 ∧
    Prescaler.from_ker_ck 300000000 = none := by
  constructor
  · exact (from_ker_ck_bucket_table 75000000).2.2.1 (by decide) (by decide)
  · exact (from_ker_ck_bucket_table 300000000).2.2.2.2.2.2.2 (by decide)

/-- C3: whenever prescaler selection accepts a frequency, the post-prescaling
frequency `f / divisor` is at most 25 MHz, so the frequency check of
`Adc::new` succeeds (its panic is unreachable) and construction completes;
conversely the check fails construction whenever the post-prescaling
frequency would still exceed the maximum. -/
theorem prescaled_frequency_bounded (f : Nat) (p : Prescaler) :
    (Prescaler.from_ker_ck f = some p →
      f / p.divisor ≤ MAX_ADC_CLK_FREQ ∧
      Adc.check_frequency f p = some (f / p.divisor) ∧
      ∀ s st, Adc.new s st f ≠ none) ∧
    (MAX_ADC_CLK_FREQ < f / p.divisor → Adc.check_frequency f p = none) := by
  constructor
  · intro h
    refine ⟨from_ker_ck_freq_le f p h, check_frequency_of_from_ker_ck f p h, ?_⟩
    intro s st
    simp [Adc.new, h, check_frequency_of_from_ker_ck f p h]
  · intro h
    simp [Adc.check_frequency, h]

/-- C3 witness: 299999999 Hz is accepted (raw 11, divider 12) and the
resulting 24999999 Hz is within the 25 MHz bound, so construction succeeds;
at 30 MHz a nominally selected ÷1 divider would still exceed the maximum
and the frequency check fails. -/
theorem prescaled_frequency_bounded_witness :
    (299999999 / (Prescaler.DividedBy12).divisor ≤ MAX_ADC_CLK_FREQ ∧
      Adc.check_frequency 299999999 .DividedBy12 = some 24999999 ∧
      ∀ s st, Adc.new s st 299999999 ≠ none) ∧
    Adc.check_frequency 30000000 .NotDivided = none := by
  constructor
  · exact (prescaled_frequency_bounded 299999999 .DividedBy12).1 (by decide)
  · exact (prescaled_frequency_bounded 30000000 .NotDivided).2 (by decide)

/-- C4: construction drives the power-up state machine strictly in the
order power-up (regulator enable plus blocking settle delay) → calibrate →
enable (clear stale ready flag, set enable flag, poll until ready asserts)
→ default-configure (continuous mode off, software trigger), each step
appearing exactly once in the register-operation trace of `Adc::new`. -/
theorem new_powerup_sequence (s : AdcState) (st f : Nat) (p : Prescaler)
    (h : Prescaler.from_ker_ck f = some p) :
    (Adc.new s st f).map Prod.snd = some
      [.rccEnableReset, .wCkmode .SYSCLK, .wPresc p.presc,
       .wAdvregen true, .delayUs 21,
       .rAutoff s.autoff, .wAutoff false, .wAdcal true, .pollAdcalClear,
       .wAutoff s.autoff,
       .delayUs 1,
       .wAdrdyClear, .wAden true, .pollAdrdySet,
       .wContExten false .DISABLED,
       .rSmpsel0, .wSmp1 st] := by
  simp [Adc.new, h, check_frequency_of_from_ker_ck f p h, Adc.power_up,
    Adc.calibrate, Adc.enable, Adc.configure_default,
    Adc.set_sample_time_all_channels, TIME_ADC_VOLTAGE_REGUALTOR_STARTUP_US]

/-- C4 witness: constructing at 24 MHz (raw 0, no division) from the
concrete state `baseState` produces exactly the power-up → calibrate →
enable → default-configure trace. -/
theorem new_powerup_sequence_witness :
    (Adc.new baseState 3 24000000).map Prod.snd = some
      [.rccEnableReset, .wCkmode .SYSCLK, .wPresc .DIV1,
       .wAdvregen true, .delayUs 21,
       .rAutoff false, .wAutoff false, .wAdcal true, .pollAdcalClear,
       .wAutoff false,
       .delayUs 1,
       .wAdrdyClear, .wAden true, .pollAdrdySet,
       .wContExten false .DISABLED,
       .rSmpsel0, .wSmp1 3] :=
  new_powerup_sequence baseState 3 24000000 .NotDivided (by decide)

/-- C6: after a scan via `read` completes from any state with the
construction baseline trigger (EXTEN disabled, as `configure_default`
established), CFGR1 again holds continuous mode off and software trigger —
exactly the fields `configure_default` establishes — so a `blocking_read`
after a completed scan sees the same configuration as one issued right
after construction. -/
theorem read_restores_default_config (s : AdcState) (d : Scandir)
    (h : s.exten = .DISABLED) :
    (Adc.read s d).fst.cont = false ∧
    (Adc.read s d).fst.exten = Exten.DISABLED ∧
    (Adc.read s d).fst.cont = (Adc.configure_default s).fst.cont ∧
    (Adc.read s d).fst.exten = (Adc.configure_default s).fst.exten := by
  have hx := (read_config_frame s d).2.2.1
  rw [hx, h]
  have hc : (Adc.read s d).fst.cont = false := by
    unfold Adc.read
    simp
  exact ⟨hc, rfl, by rw [hc]; rfl, rfl⟩

/-- C6 witness: a scan from the concrete post-construction state
`baseState` leaves continuous mode off and the trigger software-disabled,
matching `configure_default`'s baseline. -/
theorem read_restores_default_config_witness :
    (Adc.read baseState .UPWARD).fst.cont = false ∧
    (Adc.read baseState .UPWARD).fst.exten = Exten.DISABLED ∧
    (Adc.read baseState .UPWARD).fst.cont =
      (Adc.configure_default baseState).fst.cont ∧
    (Adc.read baseState .UPWARD).fst.exten =
      (Adc.configure_default baseState).fst.exten :=
  read_restores_default_config baseState .UPWARD (by decide)

/-- C8, evaluated at the failing input: starting from a state whose SMPSEL
field is 1 (channel 0 sourced from SMP2), `set_sample_time_all_channels 3`
leaves SMPSEL at 1 — the claim says it becomes 0 — because the source's
`w.smpsel(0)` is the PAC getter, not a write; its operation trace holds no
SMPSEL write.  SMP1 does receive the selector, and a subsequent
`blocking_read` leaves the sample-time register untouched. -/
theorem set_sample_time_smpsel_not_written :
    (Adc.set_sample_time_all_channels {baseState with smpsel := 1} 3).fst.smpsel
      = 1 ∧
    (Adc.set_sample_time_all_channels {baseState with smpsel := 1} 3).fst.smp1
      = 3 ∧
    (Adc.set_sample_time_all_channels {baseState with smpsel := 1} 3).snd
      = [.rSmpsel0, .wSmp1 3] ∧
    (Adc.blocking_read
      (Adc.set_sample_time_all_channels {baseState with smpsel := 1} 3).fst
      .temperature 100).fst.smpsel = 1 ∧
    (Adc.blocking_read
      (Adc.set_sample_time_all_channels {baseState with smpsel := 1} 3).fst
      .temperature 100).fst.smp1 = 3 := by
  decide

/-- C9: the hardware-averaging setter (modelled from the spec, see
`set_averaging_fields`) maps `Disabled` to ratio 0, shift 0 with the enable
flag cleared, and maps every enabled sample count to the enable flag set,
the ratio field `samples − 1`, and a right-shift field that is the base-two
logarithm of the sample count (`2 ^ shift = samples`); in particular for
each supported count `2^k`, k = 1..10, the ratio is `2^k − 1` and the shift
is `k`. -/
theorem averaging_field_mapping :
    set_averaging_fields .Disabled = (false, 0, 0) ∧
    (∀ a : Averaging, a ≠ .Disabled →
      (set_averaging_fields a).1 = true ∧
      (set_averaging_fields a).2.1 = a.samples - 1 ∧
      2 ^ (set_averaging_fields a).2.2 = a.samples) ∧
    set_averaging_fields .Samples2 = (true, 2 ^ 1 - 1, 1) ∧
    set_averaging_fields .Samples4 = (true, 2 ^ 2 - 1, 2) ∧
    set_averaging_fields .Samples8 = (true, 2 ^ 3 - 1, 3) ∧
    set_averaging_fields .Samples16 = (true, 2 ^ 4 - 1, 4) ∧
    set_averaging_fields .Samples32 = (true, 2 ^ 5 - 1, 5) ∧
    set_averaging_fields .Samples64 = (true, 2 ^ 6 - 1, 6) ∧
    set_averaging_fields .Samples128 = (true, 2 ^ 7 - 1, 7) ∧
    set_averaging_fields .Samples256 = (true, 2 ^ 8 - 1, 8) ∧
    set_averaging_fields .Samples512 = (true, 2 ^ 9 - 1, 9) ∧
    set_averaging_fields .Samples1024 = (true, 2 ^ 10 - 1, 10) := by
  refine ⟨by decide, ?_, by decide, by decide, by decide, by decide, by decide,
    by decide, by decide, by decide, by decide, by decide⟩
  intro a h
  cases a <;> first | (exact absurd rfl h) | decide

/-- C9 witness: at the concrete sample count 1024 (k = 10) the enable flag
is set, the ratio field is 1023 and two to the shift field is 1024. -/
theorem averaging_field_mapping_witness :
    (set_averaging_fields .Samples1024).1 = true ∧
    (set_averaging_fields .Samples1024).2.1 = Averaging.samples .Samples1024 - 1 ∧
    2 ^ (set_averaging_fields .Samples1024).2.2 = Averaging.samples .Samples1024 :=
  averaging_field_mapping.2.1 .Samples1024 (by decide)

end AdcC0
